import Mathlib

/-!
# DcpDriver: interrupt and DPC handling (`IsrDpc.c`)

A shallow embedding of the interrupt service routine, the deferred procedure
call and the two interrupt lifecycle hooks of `IsrDpc.c`, followed by the
properties established about them.

Modelling conventions.

* Framework handles (`WDFINTERRUPT`, `WDFDEVICE`, `WDFDMATRANSACTION`) are
  natural numbers; the null handle is `0`.
* `devExt` is a pointer in the source.  Here it is represented by the device
  handle it was obtained from, and every read `devExt->f` is a read of the
  context currently stored for that device.
* Calls that leave the file (framework calls, the upstream completion routine,
  tracing) are recorded, in program order, in a log.  Their return values are
  supplied by a `DmaEngine`, which stands for what the DMA engine answers
  during one callback invocation.  Stores to the completion marker are logged
  as well, so that their position relative to the calls is observable.
* The fields of the device extension are written only by the statements of
  this file: a call that leaves the file is taken not to write them.
* `HdmiEvtInterruptDpc` describes the DPC for framework calls that return.
  The framework validates the object handle it is handed: a call on the null
  handle does not return, the system is stopped with a bug check.
  `HdmiEvtInterruptDpcValidating` is the same routine with that validation in
  the two calls that take the transaction handle; the two agree whenever the
  handle is not null (`dpc_validating_registered`).
-/

namespace DcpDriver

/-! ## Data model -/

abbrev WDFINTERRUPT := Nat
abbrev WDFDEVICE := Nat
abbrev WDFDMATRANSACTION := Nat
abbrev NTSTATUS := Int
abbrev ULONG := Nat
abbrev BOOLEAN := Bool

/-- The null handle. -/
def NULL : Nat := 0

def STATUS_SUCCESS : NTSTATUS := 0

def TRUE : BOOLEAN := true

/-- The fields of the device extension that `IsrDpc.c` reads or writes.
`DMAcompleted` is an integer field whose declaration lives in a header; it is
only ever compared with and assigned the literal `7`. -/
structure DEVICE_EXTENSION where
  Interrupt : WDFINTERRUPT
  WriteDmaTransaction : WDFDMATRANSACTION
  DMAcompleted : Int
  deriving DecidableEq, Repr

/-- The trace statements of the file, one constructor per call site message. -/
inductive TraceMessage where
  | DpcEnter
  | DpcCompleting
  | DpcExit
  | InterruptEnable
  | InterruptDisable
  deriving DecidableEq, Repr

/-- What a callback does that is visible outside its local variables: the
calls leaving the file, and the store to `devExt->DMAcompleted`. -/
inductive Effect where
  | TraceEvents (m : TraceMessage)
  | WdfInterruptQueueDpcForIsr (Interrupt : WDFINTERRUPT)
  | WdfDmaTransactionGetCurrentDmaTransferLength (t : WDFDMATRANSACTION)
  | WdfDmaTransactionDmaCompleted (t : WDFDMATRANSACTION)
  | HdmiWriteRequestComplete (t : WDFDMATRANSACTION) (status : NTSTATUS)
  | StoreDMAcompleted (Device : WDFDEVICE) (v : Int)
  deriving DecidableEq, Repr

/-- The answers of the DMA engine during one callback invocation: the value
returned by `WdfDmaTransactionGetCurrentDmaTransferLength`, and the pair
(return value, `status` out-parameter) of `WdfDmaTransactionDmaCompleted`. -/
structure DmaEngine where
  CurrentDmaTransferLength : WDFDMATRANSACTION → Nat
  DmaCompleted : WDFDMATRANSACTION → BOOLEAN × NTSTATUS

/-- The state the callbacks run against: the framework's interrupt-to-device
table, the context of every device, and the log of effects so far. -/
structure Kernel where
  InterruptGetDevice : WDFINTERRUPT → WDFDEVICE
  DeviceContext : WDFDEVICE → DEVICE_EXTENSION
  log : List Effect

/-! ## Primitive operations -/

def WdfInterruptGetDevice (k : Kernel) (Interrupt : WDFINTERRUPT) : WDFDEVICE :=
  k.InterruptGetDevice Interrupt

def HdmiGetDeviceContext (k : Kernel) (Device : WDFDEVICE) : DEVICE_EXTENSION :=
  k.DeviceContext Device

/-- Append one effect to the log. -/
def emit (e : Effect) (k : Kernel) : Kernel :=
  { k with log := k.log ++ [e] }

def TraceEvents (m : TraceMessage) (k : Kernel) : Kernel :=
  emit (Effect.TraceEvents m) k

def WdfInterruptQueueDpcForIsr (Interrupt : WDFINTERRUPT) (k : Kernel) : Kernel :=
  emit (Effect.WdfInterruptQueueDpcForIsr Interrupt) k

def WdfDmaTransactionGetCurrentDmaTransferLength (engine : DmaEngine)
    (t : WDFDMATRANSACTION) (k : Kernel) : Nat × Kernel :=
  (engine.CurrentDmaTransferLength t,
    emit (Effect.WdfDmaTransactionGetCurrentDmaTransferLength t) k)

def WdfDmaTransactionDmaCompleted (engine : DmaEngine)
    (t : WDFDMATRANSACTION) (k : Kernel) : (BOOLEAN × NTSTATUS) × Kernel :=
  (engine.DmaCompleted t, emit (Effect.WdfDmaTransactionDmaCompleted t) k)

def HdmiWriteRequestComplete (t : WDFDMATRANSACTION) (status : NTSTATUS)
    (k : Kernel) : Kernel :=
  emit (Effect.HdmiWriteRequestComplete t status) k

/-- The assignment `devExt->DMAcompleted = v`, for the `devExt` of `Device`. -/
def storeDMAcompleted (Device : WDFDEVICE) (v : Int) (k : Kernel) : Kernel :=
  { InterruptGetDevice := k.InterruptGetDevice
    DeviceContext :=
      Function.update k.DeviceContext Device
        { k.DeviceContext Device with DMAcompleted := v }
    log := k.log ++ [Effect.StoreDMAcompleted Device v] }

/-! ## The callbacks of `IsrDpc.c` -/

/-- `HdmiEvtInterruptIsr`: queue the DPC on the interrupt object stored in the
device extension and report the interrupt as recognised. -/
def HdmiEvtInterruptIsr (Interrupt : WDFINTERRUPT) (MessageID : ULONG)
    (k : Kernel) : BOOLEAN × Kernel :=
  let isRecognized : BOOLEAN := TRUE
  let _unreferenced := MessageID
  let devExt := WdfInterruptGetDevice k Interrupt
  let k := WdfInterruptQueueDpcForIsr (HdmiGetDeviceContext k devExt).Interrupt k
  (isRecognized, k)

/-- `HdmiEvtInterruptDpc`. -/
def HdmiEvtInterruptDpc (engine : DmaEngine) (Interrupt : WDFINTERRUPT)
    (Device : WDFDEVICE) (k : Kernel) : Kernel :=
  let _unreferenced := Device
  let k := TraceEvents TraceMessage.DpcEnter k
  let devExt := WdfInterruptGetDevice k Interrupt
  let dmaTransaction := (HdmiGetDeviceContext k devExt).WriteDmaTransaction
  let (length, k) := WdfDmaTransactionGetCurrentDmaTransferLength engine dmaTransaction k
  if length = 0 ∧ (HdmiGetDeviceContext k devExt).DMAcompleted = 7 then
    k
  else
    let ((transactionComplete, status), k) :=
      WdfDmaTransactionDmaCompleted engine dmaTransaction k
    let k :=
      if transactionComplete then
        let k := TraceEvents TraceMessage.DpcCompleting k
        let k := HdmiWriteRequestComplete dmaTransaction status k
        storeDMAcompleted devExt 7 k
      else
        k
    TraceEvents TraceMessage.DpcExit k

/-- `PLxEvtInterruptEnable`. -/
def PLxEvtInterruptEnable (Interrupt : WDFINTERRUPT) (Device : WDFDEVICE)
    (k : Kernel) : NTSTATUS × Kernel :=
  let _unreferenced := Device
  let k := TraceEvents TraceMessage.InterruptEnable k
  let _devExt := WdfInterruptGetDevice k Interrupt
  (STATUS_SUCCESS, k)

/-- `PLxEvtInterruptDisable`. -/
def PLxEvtInterruptDisable (Interrupt : WDFINTERRUPT) (Device : WDFDEVICE)
    (k : Kernel) : NTSTATUS × Kernel :=
  let _unreferenced := Device
  let k := TraceEvents TraceMessage.InterruptDisable k
  let _devExt := WdfInterruptGetDevice k Interrupt
  (STATUS_SUCCESS, k)

/-! ## Sequences of callback invocations -/

/-- One invocation of a callback of the file by the framework. -/
inductive Callback where
  | Isr (Interrupt : WDFINTERRUPT) (MessageID : ULONG)
  | Dpc (engine : DmaEngine) (Interrupt : WDFINTERRUPT) (Device : WDFDEVICE)
  | Enable (Interrupt : WDFINTERRUPT) (Device : WDFDEVICE)
  | Disable (Interrupt : WDFINTERRUPT) (Device : WDFDEVICE)

/-- The state after one callback invocation (return values dropped). -/
def Callback.run : Callback → Kernel → Kernel
  | Callback.Isr i m, k => (HdmiEvtInterruptIsr i m k).2
  | Callback.Dpc e i d, k => HdmiEvtInterruptDpc e i d k
  | Callback.Enable i d, k => (PLxEvtInterruptEnable i d k).2
  | Callback.Disable i d, k => (PLxEvtInterruptDisable i d k).2

/-- The state after a finite sequence of callback invocations, in order. -/
def runCallbacks : List Callback → Kernel → Kernel
  | [], k => k
  | c :: cs, k => runCallbacks cs (c.run k)

/-- The state after a finite sequence of DPC invocations for one interrupt,
the `n`-th of which gets the DMA engine's answers `engines[n]`. -/
def runDpcs (Interrupt : WDFINTERRUPT) (Device : WDFDEVICE) :
    List DmaEngine → Kernel → Kernel
  | [], k => k
  | e :: es, k => runDpcs Interrupt Device es (HdmiEvtInterruptDpc e Interrupt Device k)

/-! ## Observations on the log -/

def Effect.isLengthQuery : Effect → Bool
  | Effect.WdfDmaTransactionGetCurrentDmaTransferLength _ => true
  | _ => false

def Effect.isAcknowledgement : Effect → Bool
  | Effect.WdfDmaTransactionDmaCompleted _ => true
  | _ => false

def Effect.isCompletion : Effect → Bool
  | Effect.HdmiWriteRequestComplete _ _ => true
  | _ => false

def Effect.isQueueDpc : Effect → Bool
  | Effect.WdfInterruptQueueDpcForIsr _ => true
  | _ => false

/-- Number of `WdfDmaTransactionGetCurrentDmaTransferLength` calls in a log. -/
def lengthQueries (l : List Effect) : Nat := l.countP Effect.isLengthQuery

/-- Number of `WdfDmaTransactionDmaCompleted` calls in a log. -/
def acknowledgements (l : List Effect) : Nat := l.countP Effect.isAcknowledgement

/-- Number of `HdmiWriteRequestComplete` calls in a log. -/
def completions (l : List Effect) : Nat := l.countP Effect.isCompletion

/-- Number of `WdfInterruptQueueDpcForIsr` calls in a log. -/
def dpcRequests (l : List Effect) : Nat := l.countP Effect.isQueueDpc

/-- The completion marker of the device behind an interrupt. -/
def marker (k : Kernel) (Interrupt : WDFINTERRUPT) : Int :=
  (HdmiGetDeviceContext k (WdfInterruptGetDevice k Interrupt)).DMAcompleted

/-- The outstanding-transaction reference of the device behind an interrupt. -/
def outstanding (k : Kernel) (Interrupt : WDFINTERRUPT) : WDFDMATRANSACTION :=
  (HdmiGetDeviceContext k (WdfInterruptGetDevice k Interrupt)).WriteDmaTransaction

/-- A one-device system: every interrupt belongs to device `1`, whose
extension is `d`; the log is empty. -/
def singleDevice (d : DEVICE_EXTENSION) : Kernel :=
  { InterruptGetDevice := fun _ => 1
    DeviceContext := fun _ => d
    log := [] }

/-- A DMA engine that answers the same to every handle. -/
def constEngine (length : Nat) (complete : BOOLEAN) (status : NTSTATUS) : DmaEngine :=
  { CurrentDmaTransferLength := fun _ => length
    DmaCompleted := fun _ => (complete, status) }

/-- The effects a callback appended to the log, given the state before and the
state after. -/
def effectsSince (before after : Kernel) : List Effect :=
  after.log.drop before.log.length

/-- Modelled from the spec: the registration of `t` as the outstanding write
transaction of the device behind `Interrupt`.  It is done by the write-request
submission path, which is not part of `IsrDpc.c`; it is taken to store the
transaction reference and to leave everything else, the completion marker
included, as it is. -/
def withOutstanding (Interrupt : WDFINTERRUPT) (t : WDFDMATRANSACTION) (k : Kernel) : Kernel :=
  { InterruptGetDevice := k.InterruptGetDevice
    DeviceContext :=
      Function.update k.DeviceContext (k.InterruptGetDevice Interrupt)
        { k.DeviceContext (k.InterruptGetDevice Interrupt) with WriteDmaTransaction := t }
    log := k.log }

/-- Something that happens to the system: a callback of `IsrDpc.c` is invoked,
or a transaction is registered as outstanding (see `withOutstanding`). -/
inductive Event where
  | callback (c : Callback)
  | register (Interrupt : WDFINTERRUPT) (t : WDFDMATRANSACTION)

def Event.run : Event → Kernel → Kernel
  | Event.callback c, k => c.run k
  | Event.register i t, k => withOutstanding i t k

/-- The state after a finite sequence of events, in order. -/
def runEvents : List Event → Kernel → Kernel
  | [], k => k
  | e :: es, k => runEvents es (e.run k)

/-! ## The DPC against a framework that validates handles -/

/-- How a callback invocation, or a framework call made by it, ends: it
returns a value, or the framework stops the system with a bug check and
nothing returns.  Either way the state reached is kept. -/
inductive Outcome (α : Type) where
  | returned (value : α) (k : Kernel)
  | bugcheck (k : Kernel)

/-- `WdfDmaTransactionGetCurrentDmaTransferLength` with the framework's handle
validation: the call is made (and logged) in both cases, and it returns the
engine's answer only if the handle is not null. -/
def WdfDmaTransactionGetCurrentDmaTransferLengthValidating (engine : DmaEngine)
    (t : WDFDMATRANSACTION) (k : Kernel) : Outcome Nat :=
  if t = NULL then
    Outcome.bugcheck (WdfDmaTransactionGetCurrentDmaTransferLength engine t k).2
  else
    Outcome.returned (WdfDmaTransactionGetCurrentDmaTransferLength engine t k).1
      (WdfDmaTransactionGetCurrentDmaTransferLength engine t k).2

/-- `WdfDmaTransactionDmaCompleted` with the framework's handle validation. -/
def WdfDmaTransactionDmaCompletedValidating (engine : DmaEngine)
    (t : WDFDMATRANSACTION) (k : Kernel) : Outcome (BOOLEAN × NTSTATUS) :=
  if t = NULL then
    Outcome.bugcheck (WdfDmaTransactionDmaCompleted engine t k).2
  else
    Outcome.returned (WdfDmaTransactionDmaCompleted engine t k).1
      (WdfDmaTransactionDmaCompleted engine t k).2

/-- `HdmiEvtInterruptDpc`, statement for statement, against the validating
framework calls: an invocation ends at the first call that does not return. -/
def HdmiEvtInterruptDpcValidating (engine : DmaEngine) (Interrupt : WDFINTERRUPT)
    (Device : WDFDEVICE) (k : Kernel) : Outcome Unit :=
  let _unreferenced := Device
  let k := TraceEvents TraceMessage.DpcEnter k
  let devExt := WdfInterruptGetDevice k Interrupt
  let dmaTransaction := (HdmiGetDeviceContext k devExt).WriteDmaTransaction
  match WdfDmaTransactionGetCurrentDmaTransferLengthValidating engine dmaTransaction k with
  | Outcome.bugcheck k => Outcome.bugcheck k
  | Outcome.returned length k =>
    if length = 0 ∧ (HdmiGetDeviceContext k devExt).DMAcompleted = 7 then
      Outcome.returned () k
    else
      match WdfDmaTransactionDmaCompletedValidating engine dmaTransaction k with
      | Outcome.bugcheck k => Outcome.bugcheck k
      | Outcome.returned (transactionComplete, status) k =>
        let k :=
          if transactionComplete then
            let k := TraceEvents TraceMessage.DpcCompleting k
            let k := HdmiWriteRequestComplete dmaTransaction status k
            storeDMAcompleted devExt 7 k
          else
            k
        Outcome.returned () (TraceEvents TraceMessage.DpcExit k)

/-! ## The three paths through the DPC -/

section Paths

variable (engine : DmaEngine) (Interrupt : WDFINTERRUPT) (Device : WDFDEVICE) (k : Kernel)

/-- Guard taken: the DPC only traces its entry and queries the length. -/
theorem dpc_stale
    (h : engine.CurrentDmaTransferLength (outstanding k Interrupt) = 0 ∧ marker k Interrupt = 7) :
    HdmiEvtInterruptDpc engine Interrupt Device k =
      { InterruptGetDevice := k.InterruptGetDevice
        DeviceContext := k.DeviceContext
        log := k.log ++
          [Effect.TraceEvents TraceMessage.DpcEnter,
           Effect.WdfDmaTransactionGetCurrentDmaTransferLength (outstanding k Interrupt)] } := by
  obtain ⟨h0, h7⟩ := h
  simp only [outstanding, marker, HdmiGetDeviceContext, WdfInterruptGetDevice] at h0 h7
  simp [HdmiEvtInterruptDpc, TraceEvents, emit, WdfInterruptGetDevice, HdmiGetDeviceContext,
    WdfDmaTransactionGetCurrentDmaTransferLength, outstanding, h0, h7]

/-- Guard not taken, acknowledgement reports "not complete". -/
theorem dpc_pending
    (h : ¬ (engine.CurrentDmaTransferLength (outstanding k Interrupt) = 0 ∧ marker k Interrupt = 7))
    (hc : (engine.DmaCompleted (outstanding k Interrupt)).1 = false) :
    HdmiEvtInterruptDpc engine Interrupt Device k =
      { InterruptGetDevice := k.InterruptGetDevice
        DeviceContext := k.DeviceContext
        log := k.log ++
          [Effect.TraceEvents TraceMessage.DpcEnter,
           Effect.WdfDmaTransactionGetCurrentDmaTransferLength (outstanding k Interrupt),
           Effect.WdfDmaTransactionDmaCompleted (outstanding k Interrupt),
           Effect.TraceEvents TraceMessage.DpcExit] } := by
  simp only [outstanding, marker, HdmiGetDeviceContext, WdfInterruptGetDevice] at h hc
  simp [HdmiEvtInterruptDpc, TraceEvents, emit, WdfInterruptGetDevice, HdmiGetDeviceContext,
    WdfDmaTransactionGetCurrentDmaTransferLength, WdfDmaTransactionDmaCompleted, outstanding,
    h, hc]

/-- Guard not taken, acknowledgement reports "complete". -/
theorem dpc_complete
    (h : ¬ (engine.CurrentDmaTransferLength (outstanding k Interrupt) = 0 ∧ marker k Interrupt = 7))
    (hc : (engine.DmaCompleted (outstanding k Interrupt)).1 = true) :
    HdmiEvtInterruptDpc engine Interrupt Device k =
      { InterruptGetDevice := k.InterruptGetDevice
        DeviceContext :=
          Function.update k.DeviceContext (k.InterruptGetDevice Interrupt)
            { k.DeviceContext (k.InterruptGetDevice Interrupt) with DMAcompleted := 7 }
        log := k.log ++
          [Effect.TraceEvents TraceMessage.DpcEnter,
           Effect.WdfDmaTransactionGetCurrentDmaTransferLength (outstanding k Interrupt),
           Effect.WdfDmaTransactionDmaCompleted (outstanding k Interrupt),
           Effect.TraceEvents TraceMessage.DpcCompleting,
           Effect.HdmiWriteRequestComplete (outstanding k Interrupt)
             (engine.DmaCompleted (outstanding k Interrupt)).2,
           Effect.StoreDMAcompleted (k.InterruptGetDevice Interrupt) 7,
           Effect.TraceEvents TraceMessage.DpcExit] } := by
  simp only [outstanding, marker, HdmiGetDeviceContext, WdfInterruptGetDevice] at h hc
  simp [HdmiEvtInterruptDpc, TraceEvents, emit, WdfInterruptGetDevice, HdmiGetDeviceContext,
    WdfDmaTransactionGetCurrentDmaTransferLength, WdfDmaTransactionDmaCompleted,
    HdmiWriteRequestComplete, storeDMAcompleted, outstanding, h, hc]

end Paths

/-! ## Frame lemmas -/

theorem dpc_InterruptGetDevice (engine : DmaEngine) (Interrupt : WDFINTERRUPT)
    (Device : WDFDEVICE) (k : Kernel) :
    (HdmiEvtInterruptDpc engine Interrupt Device k).InterruptGetDevice = k.InterruptGetDevice := by
  by_cases h : engine.CurrentDmaTransferLength (outstanding k Interrupt) = 0 ∧ marker k Interrupt = 7
  · rw [dpc_stale engine Interrupt Device k h]
  · cases hc : (engine.DmaCompleted (outstanding k Interrupt)).1
    · rw [dpc_pending engine Interrupt Device k h hc]
    · rw [dpc_complete engine Interrupt Device k h hc]

/-- After a DPC, the marker of any device is what it was, or `7`. -/
theorem dpc_marker_cases (engine : DmaEngine) (Interrupt : WDFINTERRUPT)
    (Device : WDFDEVICE) (k : Kernel) (dev : WDFDEVICE) :
    ((HdmiEvtInterruptDpc engine Interrupt Device k).DeviceContext dev).DMAcompleted
        = (k.DeviceContext dev).DMAcompleted ∨
    ((HdmiEvtInterruptDpc engine Interrupt Device k).DeviceContext dev).DMAcompleted = 7 := by
  by_cases h : engine.CurrentDmaTransferLength (outstanding k Interrupt) = 0 ∧ marker k Interrupt = 7
  · rw [dpc_stale engine Interrupt Device k h]; exact Or.inl rfl
  · cases hc : (engine.DmaCompleted (outstanding k Interrupt)).1
    · rw [dpc_pending engine Interrupt Device k h hc]; exact Or.inl rfl
    · rw [dpc_complete engine Interrupt Device k h hc]
      by_cases hd : dev = k.InterruptGetDevice Interrupt
      · right; subst hd; simp
      · left; simp [Function.update_noteq hd]

/-- A DPC never changes the outstanding-transaction reference of any device. -/
theorem dpc_WriteDmaTransaction (engine : DmaEngine) (Interrupt : WDFINTERRUPT)
    (Device : WDFDEVICE) (k : Kernel) (dev : WDFDEVICE) :
    ((HdmiEvtInterruptDpc engine Interrupt Device k).DeviceContext dev).WriteDmaTransaction
        = (k.DeviceContext dev).WriteDmaTransaction := by
  by_cases h : engine.CurrentDmaTransferLength (outstanding k Interrupt) = 0 ∧ marker k Interrupt = 7
  · rw [dpc_stale engine Interrupt Device k h]
  · cases hc : (engine.DmaCompleted (outstanding k Interrupt)).1
    · rw [dpc_pending engine Interrupt Device k h hc]
    · rw [dpc_complete engine Interrupt Device k h hc]
      by_cases hd : dev = k.InterruptGetDevice Interrupt
      · subst hd; simp
      · simp [Function.update_noteq hd]

theorem callback_InterruptGetDevice (c : Callback) (k : Kernel) :
    (c.run k).InterruptGetDevice = k.InterruptGetDevice := by
  cases c with
  | Isr i m => rfl
  | Dpc e i d => exact dpc_InterruptGetDevice e i d k
  | Enable i d => rfl
  | Disable i d => rfl

theorem callback_marker_completed (c : Callback) (k : Kernel) (dev : WDFDEVICE)
    (h : (k.DeviceContext dev).DMAcompleted = 7) :
    ((c.run k).DeviceContext dev).DMAcompleted = 7 := by
  cases c with
  | Isr i m => exact h
  | Dpc e i d =>
    rcases dpc_marker_cases e i d k dev with h1 | h1
    · exact h1.trans h
    · exact h1
  | Enable i d => exact h
  | Disable i d => exact h

theorem runCallbacks_InterruptGetDevice (cs : List Callback) (k : Kernel) :
    (runCallbacks cs k).InterruptGetDevice = k.InterruptGetDevice := by
  induction cs generalizing k with
  | nil => rfl
  | cons c cs ih =>
    show (runCallbacks cs (c.run k)).InterruptGetDevice = _
    rw [ih, callback_InterruptGetDevice]

theorem runCallbacks_marker_completed (cs : List Callback) (k : Kernel) (dev : WDFDEVICE)
    (h : (k.DeviceContext dev).DMAcompleted = 7) :
    ((runCallbacks cs k).DeviceContext dev).DMAcompleted = 7 := by
  induction cs generalizing k with
  | nil => exact h
  | cons c cs ih => exact ih (c.run k) (callback_marker_completed c k dev h)

/-- With a transaction registered, the DPC against the validating framework
returns, in the state `HdmiEvtInterruptDpc` computes. -/
theorem dpc_validating_registered (engine : DmaEngine) (Interrupt : WDFINTERRUPT)
    (Device : WDFDEVICE) (k : Kernel) (h : outstanding k Interrupt ≠ NULL) :
    HdmiEvtInterruptDpcValidating engine Interrupt Device k
      = Outcome.returned () (HdmiEvtInterruptDpc engine Interrupt Device k) := by
  simp only [outstanding, HdmiGetDeviceContext, WdfInterruptGetDevice] at h
  by_cases hg : engine.CurrentDmaTransferLength
        (k.DeviceContext (k.InterruptGetDevice Interrupt)).WriteDmaTransaction = 0 ∧
      (k.DeviceContext (k.InterruptGetDevice Interrupt)).DMAcompleted = 7
  · simp [HdmiEvtInterruptDpcValidating, HdmiEvtInterruptDpc,
      WdfDmaTransactionGetCurrentDmaTransferLengthValidating,
      WdfDmaTransactionGetCurrentDmaTransferLength, TraceEvents, emit,
      WdfInterruptGetDevice, HdmiGetDeviceContext, h, hg]
  · simp [HdmiEvtInterruptDpcValidating, HdmiEvtInterruptDpc,
      WdfDmaTransactionGetCurrentDmaTransferLengthValidating,
      WdfDmaTransactionDmaCompletedValidating,
      WdfDmaTransactionGetCurrentDmaTransferLength, WdfDmaTransactionDmaCompleted,
      TraceEvents, emit, WdfInterruptGetDevice, HdmiGetDeviceContext, h, hg]

/-- Zero-length DPC invocations on a device whose marker is `7` change neither
the device contexts nor the number of acknowledgement and completion calls. -/
theorem runDpcs_stale (Interrupt : WDFINTERRUPT) (Device : WDFDEVICE)
    (engines : List DmaEngine) (k : Kernel)
    (h7 : marker k Interrupt = 7)
    (hz : ∀ e ∈ engines, e.CurrentDmaTransferLength (outstanding k Interrupt) = 0) :
    (runDpcs Interrupt Device engines k).InterruptGetDevice = k.InterruptGetDevice ∧
    (runDpcs Interrupt Device engines k).DeviceContext = k.DeviceContext ∧
    acknowledgements (runDpcs Interrupt Device engines k).log = acknowledgements k.log ∧
    completions (runDpcs Interrupt Device engines k).log = completions k.log := by
  induction engines generalizing k with
  | nil => exact ⟨rfl, rfl, rfl, rfl⟩
  | cons e es ih =>
    have he : e.CurrentDmaTransferLength (outstanding k Interrupt) = 0 :=
      hz e (List.mem_cons_self e es)
    have hstep := dpc_stale e Interrupt Device k ⟨he, h7⟩
    have h7' : marker (HdmiEvtInterruptDpc e Interrupt Device k) Interrupt = 7 := by
      rw [hstep]; exact h7
    have ho : outstanding (HdmiEvtInterruptDpc e Interrupt Device k) Interrupt
        = outstanding k Interrupt := by
      rw [hstep]; rfl
    have hz' : ∀ e' ∈ es, e'.CurrentDmaTransferLength
        (outstanding (HdmiEvtInterruptDpc e Interrupt Device k) Interrupt) = 0 := by
      intro e' hmem
      rw [ho]
      exact hz e' (List.mem_cons_of_mem e hmem)
    obtain ⟨h1, h2, h3, h4⟩ := ih (HdmiEvtInterruptDpc e Interrupt Device k) h7' hz'
    show (runDpcs Interrupt Device es (HdmiEvtInterruptDpc e Interrupt Device k)).InterruptGetDevice
          = k.InterruptGetDevice ∧
        (runDpcs Interrupt Device es (HdmiEvtInterruptDpc e Interrupt Device k)).DeviceContext
          = k.DeviceContext ∧
        acknowledgements (runDpcs Interrupt Device es (HdmiEvtInterruptDpc e Interrupt Device k)).log
          = acknowledgements k.log ∧
        completions (runDpcs Interrupt Device es (HdmiEvtInterruptDpc e Interrupt Device k)).log
          = completions k.log
    rw [h1, h2, h3, h4, hstep]
    simp [acknowledgements, completions, List.countP_append, List.countP_cons,
      Effect.isAcknowledgement, Effect.isCompletion]

/-! ## Properties of the deferred handler -/

/-- C2, as stated, fails: after a DPC invocation has finalised transaction `9`
(one acknowledgement, one upstream completion, marker `7`), a further DPC
invocation during which the engine reports a transfer length of `4096` and
"complete" passes the guard: the acknowledgement operation and the upstream
completion routine are both called a second time for the same transaction. -/
theorem finalization_repeated_on_nonzero_length :
    marker (HdmiEvtInterruptDpc (constEngine 0 true 0) 5 1 (singleDevice ⟨5, 9, 0⟩)) 5 = 7 ∧
    acknowledgements
      (HdmiEvtInterruptDpc (constEngine 0 true 0) 5 1 (singleDevice ⟨5, 9, 0⟩)).log = 1 ∧
    completions
      (HdmiEvtInterruptDpc (constEngine 0 true 0) 5 1 (singleDevice ⟨5, 9, 0⟩)).log = 1 ∧
    acknowledgements
      (runDpcs 5 1 [constEngine 4096 true 0]
        (HdmiEvtInterruptDpc (constEngine 0 true 0) 5 1 (singleDevice ⟨5, 9, 0⟩))).log = 2 ∧
    (runDpcs 5 1 [constEngine 4096 true 0]
        (HdmiEvtInterruptDpc (constEngine 0 true 0) 5 1 (singleDevice ⟨5, 9, 0⟩))).log.filter
        Effect.isCompletion =
      [Effect.HdmiWriteRequestComplete 9 0, Effect.HdmiWriteRequestComplete 9 0] := by
  decide

/-- C2, amended: after a DPC invocation that reached the acknowledgement
operation and was told "complete" (so that it called the upstream completion
routine once and set the marker to `7`), every finite sequence of further DPC
invocations for the same interrupt, each of which observes a transfer length of
`0` on that transaction, calls neither the acknowledgement operation nor the
upstream completion routine, whatever the engine would answer to an
acknowledgement.  The upstream completion routine has then been called exactly
once since the finalising invocation started. -/
theorem finalization_idempotent_on_zero_length (first : DmaEngine)
    (Interrupt : WDFINTERRUPT) (Device : WDFDEVICE) (k : Kernel)
    (later : List DmaEngine)
    (hreach : ¬ (first.CurrentDmaTransferLength (outstanding k Interrupt) = 0 ∧
      marker k Interrupt = 7))
    (hdone : (first.DmaCompleted (outstanding k Interrupt)).1 = true)
    (hzero : ∀ e ∈ later, e.CurrentDmaTransferLength (outstanding k Interrupt) = 0) :
    acknowledgements
        (runDpcs Interrupt Device later (HdmiEvtInterruptDpc first Interrupt Device k)).log
      = acknowledgements (HdmiEvtInterruptDpc first Interrupt Device k).log ∧
    completions
        (runDpcs Interrupt Device later (HdmiEvtInterruptDpc first Interrupt Device k)).log
      = completions (HdmiEvtInterruptDpc first Interrupt Device k).log ∧
    completions
        (runDpcs Interrupt Device later (HdmiEvtInterruptDpc first Interrupt Device k)).log
      = completions k.log + 1 ∧
    (runDpcs Interrupt Device later (HdmiEvtInterruptDpc first Interrupt Device k)).DeviceContext
      = (HdmiEvtInterruptDpc first Interrupt Device k).DeviceContext := by
  have hstep := dpc_complete first Interrupt Device k hreach hdone
  have h7 : marker (HdmiEvtInterruptDpc first Interrupt Device k) Interrupt = 7 := by
    rw [hstep]; simp [marker, HdmiGetDeviceContext, WdfInterruptGetDevice]
  have ho : outstanding (HdmiEvtInterruptDpc first Interrupt Device k) Interrupt
      = outstanding k Interrupt := by
    rw [hstep]; simp [outstanding, HdmiGetDeviceContext, WdfInterruptGetDevice]
  have hz : ∀ e ∈ later, e.CurrentDmaTransferLength
      (outstanding (HdmiEvtInterruptDpc first Interrupt Device k) Interrupt) = 0 := by
    intro e hmem
    rw [ho]
    exact hzero e hmem
  obtain ⟨_, h2, h3, h4⟩ :=
    runDpcs_stale Interrupt Device later (HdmiEvtInterruptDpc first Interrupt Device k) h7 hz
  refine ⟨h3, h4, ?_, h2⟩
  rw [h4, hstep]
  simp [completions, List.countP_append, List.countP_cons, Effect.isCompletion]

/-- C2, amended, at a concrete input: transaction `9` is finalised with a bus
error status, then three stale invocations follow. -/
theorem finalization_idempotent_on_zero_length_witness :
    completions
        (runDpcs 5 1 [constEngine 0 true 0, constEngine 0 false 3, constEngine 0 true (-1)]
          (HdmiEvtInterruptDpc (constEngine 0 true (-5)) 5 1 (singleDevice ⟨5, 9, 0⟩))).log
      = completions (singleDevice ⟨5, 9, 0⟩).log + 1 :=
  (finalization_idempotent_on_zero_length (constEngine 0 true (-5)) 5 1
    (singleDevice ⟨5, 9, 0⟩)
    [constEngine 0 true 0, constEngine 0 false 3, constEngine 0 true (-1)]
    (by decide) (by decide) (by simp [constEngine])).2.2.1

/-- C3: with an outstanding transaction registered, one DPC invocation calls
the acknowledgement operation exactly once, on that transaction, unless the
observed transfer length is `0` and the marker is `7`; in that case it calls
neither the acknowledgement operation nor the upstream completion routine,
performs no store to the marker, and leaves every device context unchanged. -/
theorem guard_correctness (engine : DmaEngine) (Interrupt : WDFINTERRUPT)
    (Device : WDFDEVICE) (k : Kernel)
    (_hregistered : outstanding k Interrupt ≠ NULL) :
    (¬ (engine.CurrentDmaTransferLength (outstanding k Interrupt) = 0 ∧
        marker k Interrupt = 7) →
      (effectsSince k (HdmiEvtInterruptDpc engine Interrupt Device k)).filter
          Effect.isAcknowledgement
        = [Effect.WdfDmaTransactionDmaCompleted (outstanding k Interrupt)] ∧
      acknowledgements (HdmiEvtInterruptDpc engine Interrupt Device k).log
        = acknowledgements k.log + 1) ∧
    (engine.CurrentDmaTransferLength (outstanding k Interrupt) = 0 ∧
        marker k Interrupt = 7 →
      effectsSince k (HdmiEvtInterruptDpc engine Interrupt Device k) =
        [Effect.TraceEvents TraceMessage.DpcEnter,
         Effect.WdfDmaTransactionGetCurrentDmaTransferLength (outstanding k Interrupt)] ∧
      acknowledgements (HdmiEvtInterruptDpc engine Interrupt Device k).log
        = acknowledgements k.log ∧
      completions (HdmiEvtInterruptDpc engine Interrupt Device k).log = completions k.log ∧
      (HdmiEvtInterruptDpc engine Interrupt Device k).DeviceContext = k.DeviceContext ∧
      marker (HdmiEvtInterruptDpc engine Interrupt Device k) Interrupt = marker k Interrupt) := by
  refine ⟨?_, ?_⟩
  · intro h
    cases hc : (engine.DmaCompleted (outstanding k Interrupt)).1
    · rw [dpc_pending engine Interrupt Device k h hc]
      simp [effectsSince, acknowledgements, List.countP_append, List.countP_cons,
        Effect.isAcknowledgement, List.filter_cons]
    · rw [dpc_complete engine Interrupt Device k h hc]
      simp [effectsSince, acknowledgements, List.countP_append, List.countP_cons,
        Effect.isAcknowledgement, List.filter_cons]
  · intro h
    rw [dpc_stale engine Interrupt Device k h]
    refine ⟨?_, ?_, ?_, rfl, rfl⟩
    · simp [effectsSince]
    · simp [acknowledgements, List.countP_append, List.countP_cons, Effect.isAcknowledgement]
    · simp [completions, List.countP_append, List.countP_cons, Effect.isCompletion]

/-- C3 at a concrete input: transaction `9` registered, length `0`, marker `3`
(not completed): the acknowledgement operation is called once. -/
theorem guard_correctness_witness :
    outstanding (singleDevice ⟨5, 9, 3⟩) 5 ≠ NULL ∧
    acknowledgements
      (HdmiEvtInterruptDpc (constEngine 0 false 0) 5 1 (singleDevice ⟨5, 9, 3⟩)).log
        = acknowledgements (singleDevice ⟨5, 9, 3⟩).log + 1 :=
  ⟨by decide,
    ((guard_correctness (constEngine 0 false 0) 5 1 (singleDevice ⟨5, 9, 3⟩)
      (by decide)).1 (by decide)).2⟩

/-- C4: if a DPC invocation reaches the acknowledgement operation and the
acknowledgement answers `(true, X)`, then in that invocation the
acknowledgement operation is called exactly once, and the upstream completion
routine is called exactly once, with the acknowledged transaction and with
status `X` itself. -/
theorem failure_passthrough (engine : DmaEngine) (Interrupt : WDFINTERRUPT)
    (Device : WDFDEVICE) (k : Kernel) (X : NTSTATUS)
    (hreach : ¬ (engine.CurrentDmaTransferLength (outstanding k Interrupt) = 0 ∧
      marker k Interrupt = 7))
    (hack : engine.DmaCompleted (outstanding k Interrupt) = (true, X)) :
    (effectsSince k (HdmiEvtInterruptDpc engine Interrupt Device k)).filter
        Effect.isAcknowledgement
      = [Effect.WdfDmaTransactionDmaCompleted (outstanding k Interrupt)] ∧
    (effectsSince k (HdmiEvtInterruptDpc engine Interrupt Device k)).filter
        Effect.isCompletion
      = [Effect.HdmiWriteRequestComplete (outstanding k Interrupt) X] ∧
    completions (HdmiEvtInterruptDpc engine Interrupt Device k).log = completions k.log + 1 := by
  have hc : (engine.DmaCompleted (outstanding k Interrupt)).1 = true := by rw [hack]
  have hs : (engine.DmaCompleted (outstanding k Interrupt)).2 = X := by rw [hack]
  rw [dpc_complete engine Interrupt Device k hreach hc, hs]
  simp [effectsSince, completions, List.countP_append, List.countP_cons,
    Effect.isAcknowledgement, Effect.isCompletion, List.filter_cons]

/-- C4 at a concrete input: the engine reports completion with the failure
status `-1073741823` (0xC0000001 as a signed 32-bit value). -/
theorem failure_passthrough_witness :
    (effectsSince (singleDevice ⟨5, 9, 0⟩)
        (HdmiEvtInterruptDpc (constEngine 0 true (-1073741823)) 5 1
          (singleDevice ⟨5, 9, 0⟩))).filter Effect.isCompletion
      = [Effect.HdmiWriteRequestComplete (outstanding (singleDevice ⟨5, 9, 0⟩) 5)
          (-1073741823)] :=
  (failure_passthrough (constEngine 0 true (-1073741823)) 5 1 (singleDevice ⟨5, 9, 0⟩)
    (-1073741823) (by decide) (by decide)).2.1

/-- C5: if a DPC invocation reaches the acknowledgement operation and the
acknowledgement reports completion, then on return the marker is `7`, whatever
it was before and whatever the reported status, and the effects of the
invocation are, in order: entry trace, length query, acknowledgement,
completion trace, upstream completion call, store of `7` to the marker, exit
trace.  The upstream call therefore precedes the only store to the marker. -/
theorem completion_sets_marker (engine : DmaEngine) (Interrupt : WDFINTERRUPT)
    (Device : WDFDEVICE) (k : Kernel)
    (hreach : ¬ (engine.CurrentDmaTransferLength (outstanding k Interrupt) = 0 ∧
      marker k Interrupt = 7))
    (hdone : (engine.DmaCompleted (outstanding k Interrupt)).1 = true) :
    marker (HdmiEvtInterruptDpc engine Interrupt Device k) Interrupt = 7 ∧
    effectsSince k (HdmiEvtInterruptDpc engine Interrupt Device k) =
      [Effect.TraceEvents TraceMessage.DpcEnter,
       Effect.WdfDmaTransactionGetCurrentDmaTransferLength (outstanding k Interrupt),
       Effect.WdfDmaTransactionDmaCompleted (outstanding k Interrupt),
       Effect.TraceEvents TraceMessage.DpcCompleting,
       Effect.HdmiWriteRequestComplete (outstanding k Interrupt)
         (engine.DmaCompleted (outstanding k Interrupt)).2,
       Effect.StoreDMAcompleted (WdfInterruptGetDevice k Interrupt) 7,
       Effect.TraceEvents TraceMessage.DpcExit] := by
  rw [dpc_complete engine Interrupt Device k hreach hdone]
  simp [effectsSince, marker, HdmiGetDeviceContext, WdfInterruptGetDevice]

/-- C5 at a concrete input: marker `42` before, failure status reported. -/
theorem completion_sets_marker_witness :
    marker (singleDevice ⟨5, 9, 42⟩) 5 = 42 ∧
    marker (HdmiEvtInterruptDpc (constEngine 0 true (-3)) 5 1 (singleDevice ⟨5, 9, 42⟩)) 5
      = 7 :=
  ⟨by decide,
    (completion_sets_marker (constEngine 0 true (-3)) 5 1 (singleDevice ⟨5, 9, 42⟩)
      (by decide) (by decide)).1⟩

/-- C6: if a DPC invocation reaches the acknowledgement operation and the
acknowledgement reports "not complete" (with any status), the invocation only
traces its exit afterwards: the upstream completion routine is not called, no
store to the marker happens, and every device context (marker and
outstanding-transaction reference included) is as on entry. -/
theorem not_yet_complete_noop (engine : DmaEngine) (Interrupt : WDFINTERRUPT)
    (Device : WDFDEVICE) (k : Kernel)
    (hreach : ¬ (engine.CurrentDmaTransferLength (outstanding k Interrupt) = 0 ∧
      marker k Interrupt = 7))
    (hpending : (engine.DmaCompleted (outstanding k Interrupt)).1 = false) :
    completions (HdmiEvtInterruptDpc engine Interrupt Device k).log = completions k.log ∧
    marker (HdmiEvtInterruptDpc engine Interrupt Device k) Interrupt = marker k Interrupt ∧
    outstanding (HdmiEvtInterruptDpc engine Interrupt Device k) Interrupt
      = outstanding k Interrupt ∧
    (HdmiEvtInterruptDpc engine Interrupt Device k).DeviceContext = k.DeviceContext ∧
    effectsSince k (HdmiEvtInterruptDpc engine Interrupt Device k) =
      [Effect.TraceEvents TraceMessage.DpcEnter,
       Effect.WdfDmaTransactionGetCurrentDmaTransferLength (outstanding k Interrupt),
       Effect.WdfDmaTransactionDmaCompleted (outstanding k Interrupt),
       Effect.TraceEvents TraceMessage.DpcExit] := by
  rw [dpc_pending engine Interrupt Device k hreach hpending]
  refine ⟨?_, rfl, rfl, rfl, ?_⟩
  · simp [completions, List.countP_append, List.countP_cons, Effect.isCompletion]
  · simp [effectsSince]

/-- C6 at a concrete input: length `512`, marker `7`, acknowledgement answers
`(false, 259)`. -/
theorem not_yet_complete_noop_witness :
    completions
      (HdmiEvtInterruptDpc (constEngine 512 false 259) 5 1 (singleDevice ⟨5, 9, 7⟩)).log
        = completions (singleDevice ⟨5, 9, 7⟩).log ∧
    marker (HdmiEvtInterruptDpc (constEngine 512 false 259) 5 1 (singleDevice ⟨5, 9, 7⟩)) 5
      = marker (singleDevice ⟨5, 9, 7⟩) 5 :=
  ⟨(not_yet_complete_noop (constEngine 512 false 259) 5 1 (singleDevice ⟨5, 9, 7⟩)
      (by decide) (by decide)).1,
   (not_yet_complete_noop (constEngine 512 false 259) 5 1 (singleDevice ⟨5, 9, 7⟩)
      (by decide) (by decide)).2.1⟩

/-- C7: let a first DPC invocation reach the acknowledgement operation and be
told `(true, X)`.  A second DPC invocation for the same interrupt, run on the
resulting state and observing a transfer length of `0`, only traces its entry
and queries the length: it makes no acknowledgement call and no upstream
completion call, and the interrupt table and every device context after it are
those after the first invocation.  Nothing depends on `X`. -/
theorem duplicate_interrupt_suppressed (first second : DmaEngine)
    (Interrupt : WDFINTERRUPT) (Device : WDFDEVICE) (k : Kernel) (X : NTSTATUS)
    (hreach : ¬ (first.CurrentDmaTransferLength (outstanding k Interrupt) = 0 ∧
      marker k Interrupt = 7))
    (hack : first.DmaCompleted (outstanding k Interrupt) = (true, X))
    (hzero : second.CurrentDmaTransferLength (outstanding k Interrupt) = 0) :
    effectsSince (HdmiEvtInterruptDpc first Interrupt Device k)
        (HdmiEvtInterruptDpc second Interrupt Device
          (HdmiEvtInterruptDpc first Interrupt Device k)) =
      [Effect.TraceEvents TraceMessage.DpcEnter,
       Effect.WdfDmaTransactionGetCurrentDmaTransferLength (outstanding k Interrupt)] ∧
    acknowledgements (HdmiEvtInterruptDpc second Interrupt Device
        (HdmiEvtInterruptDpc first Interrupt Device k)).log
      = acknowledgements (HdmiEvtInterruptDpc first Interrupt Device k).log ∧
    completions (HdmiEvtInterruptDpc second Interrupt Device
        (HdmiEvtInterruptDpc first Interrupt Device k)).log
      = completions (HdmiEvtInterruptDpc first Interrupt Device k).log ∧
    (HdmiEvtInterruptDpc second Interrupt Device
        (HdmiEvtInterruptDpc first Interrupt Device k)).DeviceContext
      = (HdmiEvtInterruptDpc first Interrupt Device k).DeviceContext ∧
    (HdmiEvtInterruptDpc second Interrupt Device
        (HdmiEvtInterruptDpc first Interrupt Device k)).InterruptGetDevice
      = (HdmiEvtInterruptDpc first Interrupt Device k).InterruptGetDevice := by
  have hc : (first.DmaCompleted (outstanding k Interrupt)).1 = true := by rw [hack]
  have hstep := dpc_complete first Interrupt Device k hreach hc
  have h7 : marker (HdmiEvtInterruptDpc first Interrupt Device k) Interrupt = 7 := by
    rw [hstep]; simp [marker, HdmiGetDeviceContext, WdfInterruptGetDevice]
  have ho : outstanding (HdmiEvtInterruptDpc first Interrupt Device k) Interrupt
      = outstanding k Interrupt := by
    rw [hstep]; simp [outstanding, HdmiGetDeviceContext, WdfInterruptGetDevice]
  have hsecond := dpc_stale second Interrupt Device
    (HdmiEvtInterruptDpc first Interrupt Device k) ⟨by rw [ho]; exact hzero, h7⟩
  rw [ho] at hsecond
  rw [hsecond]
  refine ⟨?_, ?_, ?_, rfl, rfl⟩
  · simp [effectsSince]
  · simp [acknowledgements, List.countP_append, List.countP_cons, Effect.isAcknowledgement]
  · simp [completions, List.countP_append, List.countP_cons, Effect.isCompletion]

/-- C7 at a concrete input: first invocation sees length `4096` and is told
"complete" with a bus-error-like failure status; the second sees length `0`. -/
theorem duplicate_interrupt_suppressed_witness :
    completions (HdmiEvtInterruptDpc (constEngine 0 true 0) 5 1
        (HdmiEvtInterruptDpc (constEngine 4096 true (-1073741823)) 5 1
          (singleDevice ⟨5, 9, 0⟩))).log
      = completions (HdmiEvtInterruptDpc (constEngine 4096 true (-1073741823)) 5 1
          (singleDevice ⟨5, 9, 0⟩)).log :=
  (duplicate_interrupt_suppressed (constEngine 4096 true (-1073741823)) (constEngine 0 true 0)
    5 1 (singleDevice ⟨5, 9, 0⟩) (-1073741823) (by decide) (by decide) (by decide)).2.2.1

/-! ## Properties of the interrupt handler and of the lifecycle hooks -/

/-- C8: for every interrupt handle, every `MessageID` and every state, one
invocation of `HdmiEvtInterruptIsr` returns `TRUE` and its only effect is one
`WdfInterruptQueueDpcForIsr` call, on the interrupt object stored in the
extension of the device behind the handle.  The return value is the same for
every other handle, `MessageID` and state. -/
theorem isr_queues_dpc_and_recognizes (Interrupt : WDFINTERRUPT) (MessageID : ULONG)
    (k : Kernel) :
    (HdmiEvtInterruptIsr Interrupt MessageID k).1 = true ∧
    effectsSince k (HdmiEvtInterruptIsr Interrupt MessageID k).2 =
      [Effect.WdfInterruptQueueDpcForIsr
        (HdmiGetDeviceContext k (WdfInterruptGetDevice k Interrupt)).Interrupt] ∧
    dpcRequests (HdmiEvtInterruptIsr Interrupt MessageID k).2.log = dpcRequests k.log + 1 ∧
    (∀ (Interrupt' : WDFINTERRUPT) (MessageID' : ULONG) (k' : Kernel),
      (HdmiEvtInterruptIsr Interrupt' MessageID' k').1
        = (HdmiEvtInterruptIsr Interrupt MessageID k).1) := by
  refine ⟨rfl, ?_, ?_, fun _ _ _ => rfl⟩
  · simp [effectsSince, HdmiEvtInterruptIsr, WdfInterruptQueueDpcForIsr, emit]
  · simp [dpcRequests, HdmiEvtInterruptIsr, WdfInterruptQueueDpcForIsr, emit,
      List.countP_append, List.countP_cons, Effect.isQueueDpc]

/-- C9: an invocation of `HdmiEvtInterruptIsr`, of `PLxEvtInterruptEnable` or
of `PLxEvtInterruptDisable` leaves every device context unchanged, hence the
marker and the outstanding-transaction reference of the device behind the
interrupt, and adds no transfer-length query, no acknowledgement call and no
upstream completion call to the log.  Both hooks return `STATUS_SUCCESS`. -/
theorem transaction_state_untouched_outside_dpc (Interrupt : WDFINTERRUPT)
    (MessageID : ULONG) (Device : WDFDEVICE) (k : Kernel) :
    ((HdmiEvtInterruptIsr Interrupt MessageID k).2.DeviceContext = k.DeviceContext ∧
      marker (HdmiEvtInterruptIsr Interrupt MessageID k).2 Interrupt = marker k Interrupt ∧
      outstanding (HdmiEvtInterruptIsr Interrupt MessageID k).2 Interrupt
        = outstanding k Interrupt ∧
      lengthQueries (HdmiEvtInterruptIsr Interrupt MessageID k).2.log = lengthQueries k.log ∧
      acknowledgements (HdmiEvtInterruptIsr Interrupt MessageID k).2.log
        = acknowledgements k.log ∧
      completions (HdmiEvtInterruptIsr Interrupt MessageID k).2.log = completions k.log) ∧
    ((PLxEvtInterruptEnable Interrupt Device k).1 = STATUS_SUCCESS ∧
      (PLxEvtInterruptEnable Interrupt Device k).2.DeviceContext = k.DeviceContext ∧
      marker (PLxEvtInterruptEnable Interrupt Device k).2 Interrupt = marker k Interrupt ∧
      outstanding (PLxEvtInterruptEnable Interrupt Device k).2 Interrupt
        = outstanding k Interrupt ∧
      lengthQueries (PLxEvtInterruptEnable Interrupt Device k).2.log = lengthQueries k.log ∧
      acknowledgements (PLxEvtInterruptEnable Interrupt Device k).2.log
        = acknowledgements k.log ∧
      completions (PLxEvtInterruptEnable Interrupt Device k).2.log = completions k.log) ∧
    ((PLxEvtInterruptDisable Interrupt Device k).1 = STATUS_SUCCESS ∧
      (PLxEvtInterruptDisable Interrupt Device k).2.DeviceContext = k.DeviceContext ∧
      marker (PLxEvtInterruptDisable Interrupt Device k).2 Interrupt = marker k Interrupt ∧
      outstanding (PLxEvtInterruptDisable Interrupt Device k).2 Interrupt
        = outstanding k Interrupt ∧
      lengthQueries (PLxEvtInterruptDisable Interrupt Device k).2.log = lengthQueries k.log ∧
      acknowledgements (PLxEvtInterruptDisable Interrupt Device k).2.log
        = acknowledgements k.log ∧
      completions (PLxEvtInterruptDisable Interrupt Device k).2.log = completions k.log) := by
  refine ⟨⟨rfl, rfl, rfl, ?_, ?_, ?_⟩, ⟨rfl, rfl, rfl, rfl, ?_, ?_, ?_⟩,
    ⟨rfl, rfl, rfl, rfl, ?_, ?_, ?_⟩⟩ <;>
  simp [HdmiEvtInterruptIsr, PLxEvtInterruptEnable, PLxEvtInterruptDisable,
    WdfInterruptQueueDpcForIsr, TraceEvents, emit, lengthQueries, acknowledgements,
    completions, List.countP_append, List.countP_cons, Effect.isLengthQuery,
    Effect.isAcknowledgement, Effect.isCompletion]

/-! ## The marker is never reset -/

theorem event_InterruptGetDevice (e : Event) (k : Kernel) :
    (e.run k).InterruptGetDevice = k.InterruptGetDevice := by
  cases e with
  | callback c => exact callback_InterruptGetDevice c k
  | register i t => rfl

theorem event_marker_completed (e : Event) (k : Kernel) (dev : WDFDEVICE)
    (h : (k.DeviceContext dev).DMAcompleted = 7) :
    ((e.run k).DeviceContext dev).DMAcompleted = 7 := by
  cases e with
  | callback c => exact callback_marker_completed c k dev h
  | register i t =>
    show ((withOutstanding i t k).DeviceContext dev).DMAcompleted = 7
    by_cases hd : dev = k.InterruptGetDevice i
    · subst hd; simpa [withOutstanding] using h
    · simpa [withOutstanding, Function.update_noteq hd] using h

theorem runEvents_InterruptGetDevice (es : List Event) (k : Kernel) :
    (runEvents es k).InterruptGetDevice = k.InterruptGetDevice := by
  induction es generalizing k with
  | nil => rfl
  | cons e es ih =>
    show (runEvents es (e.run k)).InterruptGetDevice = _
    rw [ih, event_InterruptGetDevice]

theorem runEvents_marker_completed (es : List Event) (k : Kernel) (dev : WDFDEVICE)
    (h : (k.DeviceContext dev).DMAcompleted = 7) :
    ((runEvents es k).DeviceContext dev).DMAcompleted = 7 := by
  induction es generalizing k with
  | nil => exact h
  | cons e es ih => exact ih (e.run k) (event_marker_completed e k dev h)

/-- C10: (1) after a DPC invocation the marker of every device is its value on
entry or `7`; (2) if the marker of the device behind `Interrupt` is `7`, it is
still `7` after every finite sequence of callbacks of the file, and also when
registrations of new outstanding transactions are interleaved with them;
(3) after such a sequence, a DPC invocation that observes a transfer length of
`0` on whatever transaction is then outstanding calls neither the
acknowledgement operation nor the upstream completion routine, and leaves the
marker at `7`. -/
theorem marker_never_reset (callbacks : List Callback) (events : List Event)
    (engine : DmaEngine) (Interrupt : WDFINTERRUPT) (Device : WDFDEVICE) (k : Kernel)
    (hcompleted : marker k Interrupt = 7)
    (hzero : engine.CurrentDmaTransferLength (outstanding (runEvents events k) Interrupt) = 0) :
    (∀ (engine' : DmaEngine) (Interrupt' : WDFINTERRUPT) (Device' dev : WDFDEVICE)
        (k' : Kernel),
      ((HdmiEvtInterruptDpc engine' Interrupt' Device' k').DeviceContext dev).DMAcompleted
          = (k'.DeviceContext dev).DMAcompleted ∨
      ((HdmiEvtInterruptDpc engine' Interrupt' Device' k').DeviceContext dev).DMAcompleted
          = 7) ∧
    marker (runCallbacks callbacks k) Interrupt = 7 ∧
    marker (runEvents events k) Interrupt = 7 ∧
    acknowledgements (HdmiEvtInterruptDpc engine Interrupt Device (runEvents events k)).log
      = acknowledgements (runEvents events k).log ∧
    completions (HdmiEvtInterruptDpc engine Interrupt Device (runEvents events k)).log
      = completions (runEvents events k).log ∧
    marker (HdmiEvtInterruptDpc engine Interrupt Device (runEvents events k)) Interrupt = 7 := by
  have hcb : marker (runCallbacks callbacks k) Interrupt = 7 := by
    have h := runCallbacks_marker_completed callbacks k (k.InterruptGetDevice Interrupt)
      hcompleted
    simpa [marker, HdmiGetDeviceContext, WdfInterruptGetDevice,
      runCallbacks_InterruptGetDevice] using h
  have hev : marker (runEvents events k) Interrupt = 7 := by
    have h := runEvents_marker_completed events k (k.InterruptGetDevice Interrupt)
      hcompleted
    simpa [marker, HdmiGetDeviceContext, WdfInterruptGetDevice,
      runEvents_InterruptGetDevice] using h
  have hstep := dpc_stale engine Interrupt Device (runEvents events k) ⟨hzero, hev⟩
  refine ⟨fun e i d dev k' => dpc_marker_cases e i d k' dev, hcb, hev, ?_, ?_, ?_⟩
  · rw [hstep]
    simp [acknowledgements, List.countP_append, List.countP_cons, Effect.isAcknowledgement]
  · rw [hstep]
    simp [completions, List.countP_append, List.countP_cons, Effect.isCompletion]
  · rw [hstep]
    exact hev

/-- C10 at a concrete input: transaction `9` has been finalised (marker `7`);
an interrupt, a not-yet-complete DPC for a non-zero length, a disable and an
enable follow; then transaction `11` is registered and its first DPC observes
length `0`: no upstream completion call is made for it. -/
theorem marker_never_reset_witness :
    marker (singleDevice ⟨5, 9, 7⟩) 5 = 7 ∧
    outstanding
        (runEvents
          [Event.callback (Callback.Isr 5 0),
           Event.callback (Callback.Dpc (constEngine 64 false 0) 5 1),
           Event.callback (Callback.Disable 5 1), Event.callback (Callback.Enable 5 1),
           Event.register 5 11]
          (singleDevice ⟨5, 9, 7⟩)) 5 = 11 ∧
    completions
        (HdmiEvtInterruptDpc (constEngine 0 true 0) 5 1
          (runEvents
            [Event.callback (Callback.Isr 5 0),
             Event.callback (Callback.Dpc (constEngine 64 false 0) 5 1),
             Event.callback (Callback.Disable 5 1), Event.callback (Callback.Enable 5 1),
             Event.register 5 11]
            (singleDevice ⟨5, 9, 7⟩))).log
      = completions
          (runEvents
            [Event.callback (Callback.Isr 5 0),
             Event.callback (Callback.Dpc (constEngine 64 false 0) 5 1),
             Event.callback (Callback.Disable 5 1), Event.callback (Callback.Enable 5 1),
             Event.register 5 11]
            (singleDevice ⟨5, 9, 7⟩)).log :=
  ⟨by decide, by decide,
    (marker_never_reset []
      [Event.callback (Callback.Isr 5 0),
       Event.callback (Callback.Dpc (constEngine 64 false 0) 5 1),
       Event.callback (Callback.Disable 5 1), Event.callback (Callback.Enable 5 1),
       Event.register 5 11]
      (constEngine 0 true 0) 5 1 (singleDevice ⟨5, 9, 7⟩)
      (by decide) (by decide)).2.2.2.2.1⟩

end DcpDriver
